import Mathlib

/-!
Shallow embedding of
`tf_quant_finance/experimental/american_option_pricing/exercise_boundary.py`.

The source computes, for a batch of `num_options` American options and a
per-option maturity grid of `grid_num_points` points, the early-exercise
boundary via a fixed-point iteration.  Tensors of shape
`[num_options, grid_num_points]` are embedded as functions
`Fin m → Fin n → ℚ`; the floating-point scalar type is embedded as `ℚ`.
The transcendental primitives (`tf.math.exp`, `tf.math.log`, `tf.math.erf`,
`tf.math.sqrt` and the module constant `_SQRT_2`) are abstracted as a
parameter record `Prims`, since only their algebraic interface matters for
the verified properties.  External collaborators that are not under `src/`
(the Gauss-Legendre quadrature and the cubic-spline build/interpolate pair)
are modelled from the spec, as marked in their doc comments.
-/

/-- Abstract transcendental primitives standing for `tf.math.exp`,
`tf.math.log`, `tf.math.erf`, `tf.math.sqrt`, and the module-level constant
`_SQRT_2 = np.sqrt(2.0)`. -/
structure Prims where
  exp : ℚ → ℚ
  log : ℚ → ℚ
  erf : ℚ → ℚ
  sqrt : ℚ → ℚ
  sqrt2 : ℚ

/-- Models `tf.math.divide_no_nan`: the quotient, except that the result is
`0` whenever the divisor is exactly `0`. -/
def safeDiv (a b : ℚ) : ℚ := if b = 0 then 0 else a / b

/-- Source `_standard_normal_cdf(x) = (tf.math.erf(x / _SQRT_2) + 1) / 2`. -/
def standard_normal_cdf (P : Prims) (x : ℚ) : ℚ := (P.erf (x / P.sqrt2) + 1) / 2

/-- Source `_d_plus`: `divide_no_nan(log z + (r - q + 0.5 sigma^2) tau, sigma * sqrt tau)`. -/
def d_plus (P : Prims) (tau z r q sigma : ℚ) : ℚ :=
  safeDiv (P.log z + (r - q + (1 / 2) * sigma ^ 2) * tau) (sigma * P.sqrt tau)

/-- Source `_d_minus`: `_d_plus(...) - sigma * sqrt tau`. -/
def d_minus (P : Prims) (tau z r q sigma : ℚ) : ℚ :=
  d_plus P tau z r q sigma - sigma * P.sqrt tau

/-- Modelled from the spec: the quadrature collaborator
`tf_quant_finance.math.integration.gauss_legendre` is not under `src/`.
Per the spec it returns the definite-integral approximation of `f` over
`[lower, upper]` from a fixed rule; `nodes` lists the rule's
(weight, abscissa) pairs on the reference interval `[-1, 1]`, and the
affine change of variables maps them onto `[lower, upper]`. -/
def gauss_legendre (nodes : List (ℚ × ℚ)) (f : ℚ → ℚ) (lower upper : ℚ) : ℚ :=
  ((upper - lower) / 2) *
    (nodes.map
      (fun wx => wx.1 * f (((upper - lower) / 2) * wx.2 + (upper + lower) / 2))).sum

/-- Source `boundary_numerator` (N, formula (3.7)): per option `i` and grid
point `j`, `Phi(d_minus(tau, b(tau)/k, r, q, sigma))` plus `r` times the
quadrature over `[0, tau]` of `exp(r u) * Phi(d_minus(tau - u, b(tau)/b(u),
r, q, sigma))`.  The trial boundary callable `b` is per-row.  Note that the
ratio `b(tau)/b(u)` is the source's plain division (line 121), not
`divide_no_nan`; its IEEE zero-divisor behaviour is modelled separately by
`ratioTerm` below, since `ℚ` collapses `x / 0` to `0`. -/
def boundary_numerator (P : Prims) (nodes : List (ℚ × ℚ)) {m n : ℕ}
    (tau_grid : Fin m → Fin n → ℚ) (b : Fin m → ℚ → ℚ)
    (k r q sigma : Fin m → ℚ) : Fin m → Fin n → ℚ :=
  fun i j =>
    let term1 := standard_normal_cdf P
      (d_minus P (tau_grid i j) (b i (tau_grid i j) / k i) (r i) (q i) (sigma i))
    let func : ℚ → ℚ := fun u =>
      P.exp (r i * u) *
        standard_normal_cdf P
          (d_minus P (tau_grid i j - u) (b i (tau_grid i j) / b i u)
            (r i) (q i) (sigma i))
    term1 + r i * gauss_legendre nodes func 0 (tau_grid i j)

/-- Source `boundary_denominator` (D, formula (3.8)): same structure as the
numerator, with `d_plus` in place of `d_minus`, integrand factor
`exp(q u)`, and outer weight `q` in place of `r`. -/
def boundary_denominator (P : Prims) (nodes : List (ℚ × ℚ)) {m n : ℕ}
    (tau_grid : Fin m → Fin n → ℚ) (b : Fin m → ℚ → ℚ)
    (k r q sigma : Fin m → ℚ) : Fin m → Fin n → ℚ :=
  fun i j =>
    let term1 := standard_normal_cdf P
      (d_plus P (tau_grid i j) (b i (tau_grid i j) / k i) (r i) (q i) (sigma i))
    let func : ℚ → ℚ := fun u =>
      P.exp (q i * u) *
        standard_normal_cdf P
          (d_plus P (tau_grid i j - u) (b i (tau_grid i j) / b i u)
            (r i) (q i) (sigma i))
    term1 + q i * gauss_legendre nodes func 0 (tau_grid i j)

/-- A value produced by TensorFlow's plain `/` on floats: either a finite
number or a non-finite one (Inf or NaN). -/
inductive TFDivResult where
  | fin : ℚ → TFDivResult
  | nonfin : TFDivResult
deriving DecidableEq

/-- Models the IEEE semantics of the plain TensorFlow division operator
used at source lines 121 and 221: a zero divisor yields Inf (nonzero
dividend) or NaN (zero dividend) - in either case a non-finite value,
never `0`. -/
def tfDiv (a b : ℚ) : TFDivResult :=
  if b = 0 then TFDivResult.nonfin else TFDivResult.fin (a / b)

/-- The ratio expression `ratio = b(tau_grid_exp) / b(u)` from the
quadrature integrands of `boundary_numerator` (line 121) and
`boundary_denominator` (line 221), under IEEE division semantics. -/
def ratioTerm (b : ℚ → ℚ) (tau u : ℚ) : TFDivResult := tfDiv (b tau) (b u)

/-- Modelled from the spec: the cubic-spline collaborator
(`cubic_interpolation.build` / `cubic_interpolation.interpolate`) is not
under `src/`.  Per the spec it is consumed only through the composite
"fit then evaluate" interface, so a collaborator is abstracted as a
function taking the knot grid and the knot values and returning the
per-row interpolant. -/
def SplineFit (m n : ℕ) : Type :=
  (Fin m → Fin n → ℚ) → (Fin m → Fin n → ℚ) → Fin m → ℚ → ℚ

/-- Source `b_0` inside `exercise_boundary`, as grid samples: the constant
initial guess `K * min(1, r / q)` at every grid point (the trailing
`squeeze` of `b_0(tau_grid_exp)`). -/
def b0_samples {m n : ℕ} (k r q : Fin m → ℚ) : Fin m → Fin n → ℚ :=
  fun i _ => k i * min 1 (r i / q i)

/-- Source `b_0` as a callable: the same constant guess, as the per-row
boundary function handed to the integral-term evaluators. -/
def b0_fn {m : ℕ} (k r q : Fin m → ℚ) : Fin m → ℚ → ℚ :=
  fun i _ => k i * min 1 (r i / q i)

/-- The sample-update step of the loop body of `exercise_boundary`
(source lines 331-348): fit a spline to the current samples, evaluate the
numerator and denominator through it, and form
`divide_no_nan(k * exp(-(r - q) * tau_grid) * numerator, denominator)`. -/
def updateB (P : Prims) (nodes : List (ℚ × ℚ)) {m n : ℕ} (S : SplineFit m n)
    (tau_grid : Fin m → Fin n → ℚ) (k r q sigma : Fin m → ℚ)
    (cur : Fin m → Fin n → ℚ) : Fin m → Fin n → ℚ :=
  let bfn := S tau_grid cur
  let numerator := boundary_numerator P nodes tau_grid bfn k r q sigma
  let denominator := boundary_denominator P nodes tau_grid bfn k r q sigma
  fun i j =>
    safeDiv (k i * P.exp (-(r i - q i) * tau_grid i j) * numerator i j)
      (denominator i j)

/-- Source `tf.math.reduce_max` over a `[num_options, grid_num_points]`
tensor: the maximum entry (the tensor is nonempty). -/
def reduce_max {m n : ℕ} [NeZero m] [NeZero n] (f : Fin m → Fin n → ℚ) : ℚ :=
  Finset.univ.sup'
    ⟨(⟨0, Nat.pos_of_ne_zero (NeZero.ne m)⟩, ⟨0, Nat.pos_of_ne_zero (NeZero.ne n)⟩),
      Finset.mem_univ _⟩
    (fun p : Fin m × Fin n => f p.1 p.2)

/-- Source `body` of the `tf.while_loop` in `exercise_boundary` (lines
331-354): compute the new samples, the batch-global relative error
`reduce_max(|diff| / (|new| + epsilon))`, and the convergence flag
`relative_error <= tolerance`. -/
def body (P : Prims) (nodes : List (ℚ × ℚ)) {m n : ℕ} [NeZero m] [NeZero n]
    (S : SplineFit m n) (tau_grid : Fin m → Fin n → ℚ)
    (k r q sigma : Fin m → ℚ) (epsilon tolerance : ℚ)
    (st : Bool × (Fin m → Fin n → ℚ)) : Bool × (Fin m → Fin n → ℚ) :=
  let new_boundary_points := updateB P nodes S tau_grid k r q sigma st.2
  let relative_error := reduce_max (fun i j =>
    |new_boundary_points i j - st.2 i j| / (|new_boundary_points i j| + epsilon))
  (decide (relative_error ≤ tolerance), new_boundary_points)

/-- Models `tf.while_loop(cond, body, loop_vars, maximum_iterations)`:
apply `f` while `c` holds, but at most `fuel` times. -/
def while_loop {α : Type} (c : α → Bool) (f : α → α) : ℕ → α → α
  | 0, s => s
  | fuel + 1, s => if c s then while_loop c f fuel (f s) else s

/-- The number of body applications `while_loop` performs. -/
def stepsUsed {α : Type} (c : α → Bool) (f : α → α) : ℕ → α → ℕ
  | 0, _ => 0
  | fuel + 1, s => if c s then stepsUsed c f fuel (f s) + 1 else 0

/-- Source epsilon selection (lines 308-310): `1e-6`, overridden to
`1e-10` when the dtype is `tf.float64`. -/
def epsilonFor (isDouble : Bool) : ℚ :=
  if isDouble then 1 / 10 ^ 10 else 1 / 10 ^ 6

/-- The boundary samples produced by the `tf.while_loop` of
`exercise_boundary` (lines 356-361): start from `(False, b_0 samples)`,
iterate `body` while not converged, at most `max_depth` times. -/
def exercise_boundary_samples (P : Prims) (nodes : List (ℚ × ℚ)) {m n : ℕ}
    [NeZero m] [NeZero n] (S : SplineFit m n) (tau_grid : Fin m → Fin n → ℚ)
    (k r q sigma : Fin m → ℚ) (isDouble : Bool) (tolerance : ℚ)
    (max_depth : ℕ) : Fin m → Fin n → ℚ :=
  (while_loop (fun st => !st.1)
    (body P nodes S tau_grid k r q sigma (epsilonFor isDouble) tolerance)
    max_depth (false, b0_samples k r q)).2

/-- The per-row boundary function backing the callable returned by
`exercise_boundary` (lines 363-371): the spline fitted to the final
samples. -/
def exercise_boundary_fn (P : Prims) (nodes : List (ℚ × ℚ)) {m n : ℕ}
    [NeZero m] [NeZero n] (S : SplineFit m n) (tau_grid : Fin m → Fin n → ℚ)
    (k r q sigma : Fin m → ℚ) (isDouble : Bool) (tolerance : ℚ)
    (max_depth : ℕ) : Fin m → ℚ → ℚ :=
  S tau_grid
    (exercise_boundary_samples P nodes S tau_grid k r q sigma isDouble
      tolerance max_depth)

/-- Source `tf.reshape(t, [-1, shape_1 * shape_2])` on a
`[m, nq, pq]` tensor: row-major flattening of the two trailing axes. -/
def reshape_to_2d {m nq pq : ℕ} (t : Fin m → Fin nq → Fin pq → ℚ) :
    Fin m → Fin (nq * pq) → ℚ :=
  fun i x =>
    have hp : 0 < pq := by
      rcases Nat.eq_zero_or_pos pq with h | h
      · subst h
        exact absurd x.isLt (by simp)
      · exact h
    t i ⟨x.val / pq, Nat.div_lt_of_lt_mul (Nat.mul_comm nq pq ▸ x.isLt)⟩
      ⟨x.val % pq, Nat.mod_lt _ hp⟩

/-- Source `tf.reshape(g, [-1, shape_1, shape_2])`: the inverse row-major
reshaping of the two trailing axes. -/
def reshape_to_3d {m nq pq : ℕ} (g : Fin m → Fin (nq * pq) → ℚ) :
    Fin m → Fin nq → Fin pq → ℚ :=
  fun i j l =>
    g i ⟨j.val * pq + l.val, by
      calc j.val * pq + l.val < j.val * pq + pq := by
            exact Nat.add_lt_add_left l.isLt _
        _ = (j.val + 1) * pq := by ring
        _ ≤ nq * pq := Nat.mul_le_mul_right _ j.isLt⟩

/-- Source `new_exercise_boundary_fn` (lines 364-370): flatten the two
trailing axes of the query tensor, evaluate the interpolant row-wise, and
restore the original shape. -/
def new_exercise_boundary_fn {m : ℕ} (bfn : Fin m → ℚ → ℚ) {nq pq : ℕ}
    (t : Fin m → Fin nq → Fin pq → ℚ) : Fin m → Fin nq → Fin pq → ℚ :=
  reshape_to_3d (fun i x => bfn i (reshape_to_2d t i x))

/-- Source `exercise_boundary`: the returned callable, acting on a query
tensor of shape `[num_options, nq, pq]`. -/
def exercise_boundary (P : Prims) (nodes : List (ℚ × ℚ)) {m n : ℕ}
    [NeZero m] [NeZero n] (S : SplineFit m n) (tau_grid : Fin m → Fin n → ℚ)
    (k r q sigma : Fin m → ℚ) (isDouble : Bool) (tolerance : ℚ)
    (max_depth : ℕ) {nq pq : ℕ} (t : Fin m → Fin nq → Fin pq → ℚ) :
    Fin m → Fin nq → Fin pq → ℚ :=
  new_exercise_boundary_fn
    (exercise_boundary_fn P nodes S tau_grid k r q sigma isDouble tolerance
      max_depth) t

/-- A concrete primitive record with `sqrt 0 = 0` and `erf 0 = 0`, used to
instantiate hypotheses in witnesses. -/
def Pid : Prims :=
  { exp := fun _ => 1, log := id, erf := id, sqrt := id, sqrt2 := 1 }

/-- A concrete primitive record used in concrete counterexample runs. -/
def Pex : Prims :=
  { exp := fun _ => 1, log := id, erf := id, sqrt := fun _ => 1, sqrt2 := 1 }

/-- The one-point Gauss-Legendre rule: weight `2` at abscissa `0`. -/
def glNode1 : List (ℚ × ℚ) := [(2, 0)]

/-- A concrete spline collaborator for a single-knot grid (`n = 1`): with
one knot per row the interpolant is the constant function through that
knot's value.  It is row-local and interpolates the knots. -/
def constSpline (m : ℕ) : SplineFit m 1 := fun _ vals i _ => vals i 0

/-- Two-option batch used in the batch-independence counterexample:
identical strike, rate and dividend, different volatilities. -/
def tauJ : Fin 2 → Fin 1 → ℚ := fun _ _ => 1

def oneJ : Fin 2 → ℚ := fun _ => 1

def sigmaJ : Fin 2 → ℚ := fun i => if i = 0 then 1 else 2

/-- Row 0 of `tauJ` / `oneJ` / `sigmaJ` solved alone. -/
def tauS : Fin 1 → Fin 1 → ℚ := fun _ _ => 1

def oneS : Fin 1 → ℚ := fun _ => 1

/-- An invalid maturity grid: a negative time-to-maturity entry. -/
def tauNeg : Fin 1 → Fin 1 → ℚ := fun _ _ => -1

def tauZ : Fin 1 → Fin 1 → ℚ := fun _ _ => 0

def twoS : Fin 1 → ℚ := fun _ => 2

/-- Zero dividend-rate batch used in witnesses. -/
def qZ : Fin 1 → ℚ := fun _ => 0

/-- `while_loop` performs exactly `stepsUsed` applications of the body. -/
theorem while_loop_eq_iterate {α : Type} (c : α → Bool) (f : α → α) :
    ∀ (fuel : ℕ) (s : α), while_loop c f fuel s = f^[stepsUsed c f fuel s] s := by
  intro fuel
  induction fuel with
  | zero => intro s; rfl
  | succ d ih =>
    intro s
    cases hcs : c s with
    | false => simp [while_loop, stepsUsed, hcs]
    | true =>
      simp only [while_loop, stepsUsed, hcs, if_true, ih (f s),
        Function.iterate_succ_apply]

/-- The loop body runs at most `fuel` times. -/
theorem stepsUsed_le {α : Type} (c : α → Bool) (f : α → α) :
    ∀ (fuel : ℕ) (s : α), stepsUsed c f fuel s ≤ fuel := by
  intro fuel
  induction fuel with
  | zero => intro s; exact Nat.le_refl 0
  | succ d ih =>
    intro s
    cases hcs : c s with
    | false => simp [stepsUsed, hcs]
    | true =>
      simp only [stepsUsed, hcs, if_true]
      exact Nat.succ_le_succ (ih (f s))

/-- Flatten-evaluate-unflatten round trip: the reshaped evaluation agrees
with the direct pointwise evaluation of the per-row interpolant. -/
theorem reshape_round_trip {m nq pq : ℕ} (bfn : Fin m → ℚ → ℚ)
    (t : Fin m → Fin nq → Fin pq → ℚ) (i : Fin m) (j : Fin nq) (l : Fin pq) :
    new_exercise_boundary_fn bfn t i j l = bfn i (t i j l) := by
  have hp : 0 < pq := l.pos
  have hdiv : (j.val * pq + l.val) / pq = j.val := by
    rw [Nat.add_comm, Nat.add_mul_div_right _ _ hp, Nat.div_eq_of_lt l.isLt,
      Nat.zero_add]
  have hmod : (j.val * pq + l.val) % pq = l.val := by
    rw [Nat.add_comm, Nat.add_mul_mod_self_right, Nat.mod_eq_of_lt l.isLt]
  unfold new_exercise_boundary_fn reshape_to_3d reshape_to_2d
  exact congrArg (bfn i) (congrArg₂ (t i) (Fin.ext hdiv) (Fin.ext hmod))

/-- C1: in every iteration of the fixed-point loop, the new boundary sample
vector is `k * exp(-(r - q) * tau_grid) * N / D`, with `N` and `D` the
values of `boundary_numerator` and `boundary_denominator` for the current
spline-backed boundary callable, and the division by `D` follows the
safe-divide convention: when `D i j = 0` the entry is `0`. -/
theorem exercise_boundary_update_rule (P : Prims) (nodes : List (ℚ × ℚ))
    {m n : ℕ} [NeZero m] [NeZero n] (S : SplineFit m n)
    (tau_grid : Fin m → Fin n → ℚ) (k r q sigma : Fin m → ℚ)
    (epsilon tolerance : ℚ) (c : Bool) (cur : Fin m → Fin n → ℚ) :
    (∀ i j,
      boundary_denominator P nodes tau_grid (S tau_grid cur) k r q sigma i j ≠ 0 →
      (body P nodes S tau_grid k r q sigma epsilon tolerance (c, cur)).2 i j =
        k i * P.exp (-(r i - q i) * tau_grid i j) *
            boundary_numerator P nodes tau_grid (S tau_grid cur) k r q sigma i j /
          boundary_denominator P nodes tau_grid (S tau_grid cur) k r q sigma i j) ∧
    (∀ i j,
      boundary_denominator P nodes tau_grid (S tau_grid cur) k r q sigma i j = 0 →
      (body P nodes S tau_grid k r q sigma epsilon tolerance (c, cur)).2 i j = 0) := by
  constructor <;> intro i j h <;> simp [body, updateB, safeDiv, h]

theorem exercise_boundary_update_rule_witness :
    boundary_denominator Pex glNode1 tauS
        (constSpline 1 tauS (b0_samples oneS oneS oneS)) oneS oneS oneS oneS 0 0 ≠ 0 ∧
    (body Pex glNode1 (constSpline 1) tauS oneS oneS oneS oneS (epsilonFor true)
        (3 / 4) (false, b0_samples oneS oneS oneS)).2 0 0 =
      oneS 0 * Pex.exp (-(oneS 0 - oneS 0) * tauS 0 0) *
          boundary_numerator Pex glNode1 tauS
            (constSpline 1 tauS (b0_samples oneS oneS oneS)) oneS oneS oneS oneS 0 0 /
        boundary_denominator Pex glNode1 tauS
          (constSpline 1 tauS (b0_samples oneS oneS oneS)) oneS oneS oneS oneS 0 0 := by
  have hD : boundary_denominator Pex glNode1 tauS
      (constSpline 1 tauS (b0_samples oneS oneS oneS)) oneS oneS oneS oneS 0 0 ≠ 0 := by
    norm_num [boundary_denominator, standard_normal_cdf, d_plus, d_minus, safeDiv,
      gauss_legendre, glNode1, constSpline, b0_samples, tauS, oneS, Pex, min_def]
  exact ⟨hD,
    (exercise_boundary_update_rule Pex glNode1 (constSpline 1) tauS oneS oneS
      oneS oneS (epsilonFor true) (3 / 4) false (b0_samples oneS oneS oneS)).1
      0 0 hD⟩

/-- C2 counterexample: for the trial boundary `b = id`, which is `0` at
`u = 0`, the ratio `b(tau)/b(u)` of the quadrature integrands (plain
TensorFlow division, source lines 121 and 221) is non-finite, not `0`. -/
theorem ratioTerm_counterexample :
    (fun x : ℚ => x) 0 = 0 ∧
    ratioTerm (fun x : ℚ => x) 1 0 = TFDivResult.nonfin ∧
    ratioTerm (fun x : ℚ => x) 1 0 ≠ TFDivResult.fin 0 := by
  refine ⟨rfl, ?_, ?_⟩ <;> simp [ratioTerm, tfDiv]

/-- C2 amended: the boundary ratio in the quadrature integrands is computed
with plain division, not safe-divide: at every `u` with `b u = 0` it is a
non-finite value (Inf or NaN), and only for `b u ≠ 0` is it the finite
quotient. -/
theorem ratioTerm_plain_division (b : ℚ → ℚ) (tau u : ℚ) :
    (b u = 0 → ratioTerm b tau u = TFDivResult.nonfin) ∧
    (b u ≠ 0 → ratioTerm b tau u = TFDivResult.fin (b tau / b u)) := by
  constructor <;> intro h <;> simp [ratioTerm, tfDiv, h]

theorem ratioTerm_plain_division_witness :
    ratioTerm (fun x : ℚ => x) 1 0 = TFDivResult.nonfin ∧
    ratioTerm (fun x : ℚ => x) 1 2 = TFDivResult.fin (1 / 2) :=
  ⟨(ratioTerm_plain_division (fun x : ℚ => x) 1 0).1 rfl,
    (ratioTerm_plain_division (fun x : ℚ => x) 1 2).2 (by norm_num)⟩

/-- C4: with a zero denominator `sigma * sqrt tau` (in particular at
`tau = 0`), `d_plus` and `d_minus` are `0` by the safe-divide convention,
not NaN or infinity. -/
theorem d_plus_d_minus_safe_divide (P : Prims) :
    (∀ z r q sigma : ℚ, P.sqrt 0 = 0 →
      d_plus P 0 z r q sigma = 0 ∧ d_minus P 0 z r q sigma = 0) ∧
    (∀ tau z r q sigma : ℚ, sigma * P.sqrt tau = 0 →
      d_plus P tau z r q sigma = 0) := by
  constructor
  · intro z r q sigma h
    constructor <;> simp [d_minus, d_plus, safeDiv, h]
  · intro tau z r q sigma h
    simp [d_plus, safeDiv, h]

theorem d_plus_d_minus_safe_divide_witness :
    (Pid.sqrt 0 = 0 ∧ d_plus Pid 0 2 (1 / 3) (1 / 5) 7 = 0 ∧
      d_minus Pid 0 2 (1 / 3) (1 / 5) 7 = 0) ∧
    ((3 : ℚ) * Pid.sqrt 0 = 0 ∧ d_plus Pid 0 5 1 1 3 = 0) :=
  ⟨⟨rfl, (d_plus_d_minus_safe_divide Pid).1 2 (1 / 3) (1 / 5) 7 rfl⟩,
    ⟨by norm_num [Pid], (d_plus_d_minus_safe_divide Pid).2 0 5 1 1 3 (by norm_num [Pid])⟩⟩

/-- C5: per iteration, the convergence flag holds iff the batch-global
relative error `reduce_max(|new - old| / (|new| + epsilon))` is at most the
tolerance (equivalently, iff every entry's relative error is), the epsilon
is `1e-6` in single and `1e-10` in double precision, and the new sample
vector replaces the current one in the loop state. -/
theorem exercise_boundary_convergence_decision (P : Prims)
    (nodes : List (ℚ × ℚ)) {m n : ℕ} [NeZero m] [NeZero n] (S : SplineFit m n)
    (tau_grid : Fin m → Fin n → ℚ) (k r q sigma : Fin m → ℚ)
    (isDouble : Bool) (tolerance : ℚ) (st : Bool × (Fin m → Fin n → ℚ)) :
    ((body P nodes S tau_grid k r q sigma (epsilonFor isDouble) tolerance st).1 = true ↔
      reduce_max (fun i j =>
        |updateB P nodes S tau_grid k r q sigma st.2 i j - st.2 i j| /
          (|updateB P nodes S tau_grid k r q sigma st.2 i j| + epsilonFor isDouble)) ≤
        tolerance) ∧
    ((body P nodes S tau_grid k r q sigma (epsilonFor isDouble) tolerance st).1 = true ↔
      ∀ i j,
        |updateB P nodes S tau_grid k r q sigma st.2 i j - st.2 i j| /
          (|updateB P nodes S tau_grid k r q sigma st.2 i j| + epsilonFor isDouble) ≤
        tolerance) ∧
    (body P nodes S tau_grid k r q sigma (epsilonFor isDouble) tolerance st).2 =
      updateB P nodes S tau_grid k r q sigma st.2 ∧
    epsilonFor false = 1 / 10 ^ 6 ∧ epsilonFor true = 1 / 10 ^ 10 := by
  have hb : (body P nodes S tau_grid k r q sigma (epsilonFor isDouble) tolerance st).1 =
      decide (reduce_max (fun i j =>
        |updateB P nodes S tau_grid k r q sigma st.2 i j - st.2 i j| /
          (|updateB P nodes S tau_grid k r q sigma st.2 i j| + epsilonFor isDouble)) ≤
        tolerance) := rfl
  refine ⟨by rw [hb]; exact decide_eq_true_iff, ?_, rfl, rfl, rfl⟩
  rw [hb, decide_eq_true_iff, reduce_max, Finset.sup'_le_iff]
  constructor
  · intro h i j
    exact h (i, j) (Finset.mem_univ _)
  · intro h p _
    exact h p.1 p.2

/-- C6: the fixed-point loop performs at most `max_depth` body iterations;
whether or not the tolerance was reached, no failure occurs and the
returned callable is backed by the spline fitted to the last computed
sample vector. -/
theorem exercise_boundary_loop_budget (P : Prims) (nodes : List (ℚ × ℚ))
    {m n : ℕ} [NeZero m] [NeZero n] (S : SplineFit m n)
    (tau_grid : Fin m → Fin n → ℚ) (k r q sigma : Fin m → ℚ)
    (isDouble : Bool) (tolerance : ℚ) (max_depth : ℕ) :
    stepsUsed (fun st => !st.1)
        (body P nodes S tau_grid k r q sigma (epsilonFor isDouble) tolerance)
        max_depth (false, b0_samples k r q) ≤ max_depth ∧
    exercise_boundary_samples P nodes S tau_grid k r q sigma isDouble tolerance
        max_depth =
      ((body P nodes S tau_grid k r q sigma (epsilonFor isDouble) tolerance)^[
          stepsUsed (fun st => !st.1)
            (body P nodes S tau_grid k r q sigma (epsilonFor isDouble) tolerance)
            max_depth (false, b0_samples k r q)]
        (false, b0_samples k r q)).2 ∧
    exercise_boundary_fn P nodes S tau_grid k r q sigma isDouble tolerance
        max_depth =
      S tau_grid
        (exercise_boundary_samples P nodes S tau_grid k r q sigma isDouble
          tolerance max_depth) :=
  ⟨stepsUsed_le _ _ _ _,
    by rw [exercise_boundary_samples, while_loop_eq_iterate],
    rfl⟩

/-- C7: at every grid point with `tau_grid i j = 0`, both integral-term
evaluators applied to the initial constant guess `b_0 = k * min(1, r/q)`
are exactly `1/2`: the leading term is `Phi(0) = 1/2` through the
safe-divide in `d_plus`/`d_minus`, and the quadrature term over the
zero-length interval `[0, 0]` is exactly `0`. -/
theorem boundary_terms_at_tau_zero (P : Prims) (nodes : List (ℚ × ℚ))
    {m n : ℕ} (tau_grid : Fin m → Fin n → ℚ) (k r q sigma : Fin m → ℚ)
    (i : Fin m) (j : Fin n) (h0 : P.sqrt 0 = 0) (he : P.erf 0 = 0)
    (ht : tau_grid i j = 0) :
    boundary_numerator P nodes tau_grid (b0_fn k r q) k r q sigma i j = 1 / 2 ∧
    boundary_denominator P nodes tau_grid (b0_fn k r q) k r q sigma i j = 1 / 2 := by
  constructor <;>
    norm_num [boundary_numerator, boundary_denominator, gauss_legendre,
      standard_normal_cdf, d_minus, d_plus, safeDiv, ht, h0, he]

theorem boundary_terms_at_tau_zero_witness :
    (Pid.sqrt 0 = 0 ∧ Pid.erf 0 = 0 ∧ tauZ 0 0 = 0) ∧
    boundary_numerator Pid glNode1 tauZ (b0_fn twoS oneS twoS) twoS oneS twoS
        oneS 0 0 = 1 / 2 ∧
    boundary_denominator Pid glNode1 tauZ (b0_fn twoS oneS twoS) twoS oneS twoS
        oneS 0 0 = 1 / 2 :=
  ⟨⟨rfl, rfl, rfl⟩,
    boundary_terms_at_tau_zero Pid glNode1 tauZ twoS oneS twoS oneS 0 0 rfl rfl rfl⟩

/-- C8: the callable returned by `exercise_boundary` maps a query tensor of
shape `[m, nq, pq]` to one of exactly the same shape, and each output entry
is the final spline evaluated at the corresponding input entry - the
flatten / evaluate / unflatten round trip is the identity on indices. -/
theorem exercise_boundary_shape_invariance (P : Prims) (nodes : List (ℚ × ℚ))
    {m n : ℕ} [NeZero m] [NeZero n] (S : SplineFit m n)
    (tau_grid : Fin m → Fin n → ℚ) (k r q sigma : Fin m → ℚ)
    (isDouble : Bool) (tolerance : ℚ) (max_depth : ℕ) {nq pq : ℕ}
    (t : Fin m → Fin nq → Fin pq → ℚ) (i : Fin m) (j : Fin nq) (l : Fin pq) :
    exercise_boundary P nodes S tau_grid k r q sigma isDouble tolerance
        max_depth t i j l =
      exercise_boundary_fn P nodes S tau_grid k r q sigma isDouble tolerance
        max_depth i (t i j l) :=
  reshape_round_trip
    (exercise_boundary_fn P nodes S tau_grid k r q sigma isDouble tolerance
      max_depth) t i j l

/-- C10: for an option row with `q i = 0`, `boundary_denominator` is exactly
its first term `Phi(d_plus(tau, b(tau)/k, r, 0, sigma))`: the quadrature
term carries the outer weight `q i = 0` and contributes nothing, whatever
the integral's value. -/
theorem boundary_denominator_q_zero (P : Prims) (nodes : List (ℚ × ℚ))
    {m n : ℕ} (tau_grid : Fin m → Fin n → ℚ) (b : Fin m → ℚ → ℚ)
    (k r q sigma : Fin m → ℚ) (i : Fin m) (j : Fin n) (hq : q i = 0) :
    boundary_denominator P nodes tau_grid b k r q sigma i j =
      standard_normal_cdf P
        (d_plus P (tau_grid i j) (b i (tau_grid i j) / k i) (r i) 0 (sigma i)) := by
  simp [boundary_denominator, hq]

theorem boundary_denominator_q_zero_witness :
    qZ 0 = 0 ∧
    boundary_denominator Pid glNode1 tauS (b0_fn oneS oneS qZ) oneS oneS qZ
        oneS 0 0 =
      standard_normal_cdf Pid
        (d_plus Pid (tauS 0 0) (b0_fn oneS oneS qZ 0 (tauS 0 0) / oneS 0)
          (oneS 0) 0 (oneS 0)) :=
  ⟨rfl,
    boundary_denominator_q_zero Pid glNode1 tauS (b0_fn oneS oneS qZ) oneS oneS
      qZ oneS 0 0 rfl⟩

/-- `reduce_max` of a `1 x 1` tensor is its only entry. -/
theorem reduce_max_one (f : Fin 1 → Fin 1 → ℚ) : reduce_max f = f 0 0 := by
  apply le_antisymm
  · rw [reduce_max]
    apply Finset.sup'_le
    rintro ⟨i, j⟩ -
    exact le_of_eq (by rw [Subsingleton.elim i 0, Subsingleton.elim j 0])
  · rw [reduce_max]
    exact Finset.le_sup' (fun p : Fin 1 × Fin 1 => f p.1 p.2) (Finset.mem_univ (0, 0))

/-- `reduce_max` of a `2 x 1` tensor is the max of its two entries. -/
theorem reduce_max_two (f : Fin 2 → Fin 1 → ℚ) : reduce_max f = max (f 0 0) (f 1 0) := by
  apply le_antisymm
  · rw [reduce_max]
    apply Finset.sup'_le
    rintro ⟨i, j⟩ -
    fin_cases i
    · fin_cases j
      exact le_max_left _ _
    · fin_cases j
      exact le_max_right _ _
  · apply max_le
    · exact Finset.le_sup' (fun p : Fin 2 × Fin 1 => f p.1 p.2) (Finset.mem_univ (0, 0))
    · exact Finset.le_sup' (fun p : Fin 2 × Fin 1 => f p.1 p.2) (Finset.mem_univ (1, 0))

/-- The sample-update map acts row-locally: when the spline collaborator is
row-local, row `i` of a batch update equals the update of row `i` solved as
a singleton batch. -/
theorem updateB_row (P : Prims) (nodes : List (ℚ × ℚ)) {m n : ℕ}
    (S : SplineFit m n) (S1 : SplineFit 1 n) (tau_grid : Fin m → Fin n → ℚ)
    (k r q sigma : Fin m → ℚ) (B : Fin m → Fin n → ℚ) (i : Fin m)
    (hS : S tau_grid B i = S1 (fun _ => tau_grid i) (fun _ => B i) 0) :
    updateB P nodes S tau_grid k r q sigma B i =
      updateB P nodes S1 (fun _ => tau_grid i) (fun _ => k i) (fun _ => r i)
        (fun _ => q i) (fun _ => sigma i) (fun _ => B i) 0 := by
  funext j
  simp only [updateB, boundary_numerator, boundary_denominator, hS]

/-- C9 amended: the per-row dynamics of the fixed-point iteration are
independent across the batch: with a row-local spline collaborator, after
any equal number `t` of update steps, row `i` of the joint batch iterate
equals the singleton-batch iterate of row `i`.  (The loop's convergence
test, however, is batch-global, so the joint and solo runs may stop after
different step counts; see the counterexample.) -/
theorem exercise_boundary_row_independence (P : Prims) (nodes : List (ℚ × ℚ))
    {m n : ℕ} (S : SplineFit m n) (S1 : SplineFit 1 n)
    (tau_grid : Fin m → Fin n → ℚ) (k r q sigma : Fin m → ℚ)
    (hS : ∀ (B : Fin m → Fin n → ℚ) (i : Fin m),
      S tau_grid B i = S1 (fun _ => tau_grid i) (fun _ => B i) 0) :
    ∀ (t : ℕ) (i : Fin m),
      (updateB P nodes S tau_grid k r q sigma)^[t] (b0_samples k r q) i =
        (updateB P nodes S1 (fun _ => tau_grid i) (fun _ => k i) (fun _ => r i)
          (fun _ => q i) (fun _ => sigma i))^[t]
          (b0_samples (fun _ => k i) (fun _ => r i) (fun _ => q i)) 0 := by
  intro t
  induction t with
  | zero => intro i; rfl
  | succ d ih =>
    intro i
    rw [Function.iterate_succ_apply', Function.iterate_succ_apply']
    rw [updateB_row P nodes S S1 tau_grid k r q sigma
      ((updateB P nodes S tau_grid k r q sigma)^[d] (b0_samples k r q)) i
      (hS _ i)]
    have hrow : (fun _ : Fin 1 =>
        (updateB P nodes S tau_grid k r q sigma)^[d] (b0_samples k r q) i) =
        (updateB P nodes S1 (fun _ => tau_grid i) (fun _ => k i) (fun _ => r i)
          (fun _ => q i) (fun _ => sigma i))^[d]
          (b0_samples (fun _ => k i) (fun _ => r i) (fun _ => q i)) := by
      funext x
      have hx : x = (0 : Fin 1) := Subsingleton.elim x 0
      subst hx
      exact ih i
    rw [hrow]

theorem exercise_boundary_row_independence_witness :
    (∀ (B : Fin 2 → Fin 1 → ℚ) (i : Fin 2),
      constSpline 2 tauJ B i = constSpline 1 (fun _ => tauJ i) (fun _ => B i) 0) ∧
    (updateB Pex glNode1 (constSpline 2) tauJ oneJ oneJ oneJ sigmaJ)^[2]
        (b0_samples oneJ oneJ oneJ) 0 =
      (updateB Pex glNode1 (constSpline 1) (fun _ => tauJ 0) (fun _ => oneJ 0)
          (fun _ => oneJ 0) (fun _ => oneJ 0) (fun _ => sigmaJ 0))^[2]
        (b0_samples (fun _ => oneJ 0) (fun _ => oneJ 0) (fun _ => oneJ 0)) 0 :=
  ⟨fun _ _ => rfl,
    exercise_boundary_row_independence Pex glNode1 (constSpline 2)
      (constSpline 1) tauJ oneJ oneJ oneJ sigmaJ (fun _ _ => rfl) 2 0⟩

theorem while_loop_zero {α : Type} (c : α → Bool) (f : α → α) (s : α) :
    while_loop c f 0 s = s := rfl

theorem while_loop_succ {α : Type} (c : α → Bool) (f : α → α) (fuel : ℕ) (s : α) :
    while_loop c f (fuel + 1) s = if c s then while_loop c f fuel (f s) else s := rfl

/-- First joint iterate of the two-option batch `tauJ`/`oneJ`/`sigmaJ`. -/
def B1J : Fin 2 → Fin 1 → ℚ := fun i _ => if i = 0 then 11 / 19 else 1 / 9

/-- First solo iterate of row 0 of that batch. -/
def B1S : Fin 1 → Fin 1 → ℚ := fun _ _ => 11 / 19

theorem updateB_jointJ :
    updateB Pex glNode1 (constSpline 2) tauJ oneJ oneJ oneJ sigmaJ
      (b0_samples oneJ oneJ oneJ) = B1J := by
  funext i j
  fin_cases i <;> fin_cases j <;>
    norm_num [updateB, boundary_numerator, boundary_denominator,
      standard_normal_cdf, d_plus, d_minus, safeDiv, gauss_legendre, glNode1,
      constSpline, b0_samples, tauJ, oneJ, sigmaJ, Pex, B1J, min_def]

theorem body_jointJ1 :
    body Pex glNode1 (constSpline 2) tauJ oneJ oneJ oneJ sigmaJ
      (epsilonFor true) (3 / 4) (false, b0_samples oneJ oneJ oneJ) =
    (false, B1J) := by
  simp only [body]
  rw [updateB_jointJ, reduce_max_two]
  refine congrArg₂ Prod.mk (decide_eq_false ?_) rfl
  rw [max_le_iff]
  intro hle
  exact absurd hle.2
    (by norm_num [B1J, b0_samples, oneJ, epsilonFor, abs_of_nonneg])

theorem body_jointJ2_entry :
    (body Pex glNode1 (constSpline 2) tauJ oneJ oneJ oneJ sigmaJ
      (epsilonFor true) (3 / 4) (false, B1J)).2 0 0 = 177 / 329 := by
  show updateB Pex glNode1 (constSpline 2) tauJ oneJ oneJ oneJ sigmaJ B1J 0 0 =
    177 / 329
  norm_num [updateB, boundary_numerator, boundary_denominator,
    standard_normal_cdf, d_plus, d_minus, safeDiv, gauss_legendre, glNode1,
    constSpline, b0_samples, tauJ, oneJ, sigmaJ, Pex, B1J, min_def]

theorem updateB_soloS :
    updateB Pex glNode1 (constSpline 1) tauS oneS oneS oneS oneS
      (b0_samples oneS oneS oneS) = B1S := by
  funext i j
  fin_cases i
  fin_cases j
  norm_num [updateB, boundary_numerator, boundary_denominator,
    standard_normal_cdf, d_plus, d_minus, safeDiv, gauss_legendre, glNode1,
    constSpline, b0_samples, tauS, oneS, Pex, B1S, min_def]

theorem body_soloS1 :
    body Pex glNode1 (constSpline 1) tauS oneS oneS oneS oneS
      (epsilonFor true) (3 / 4) (false, b0_samples oneS oneS oneS) =
    (true, B1S) := by
  simp only [body]
  rw [updateB_soloS, reduce_max_one]
  refine congrArg₂ Prod.mk (decide_eq_true ?_) rfl
  norm_num [B1S, b0_samples, oneS, epsilonFor, abs_of_nonneg]

/-- C9 counterexample: for the concrete two-option batch
`tauJ`/`oneJ`/`sigmaJ` (same grid row, tolerance `3/4`, one quadrature
node, `max_depth = 2`), the joint solve gives row 0 the value `177/329`,
while solving row 0 alone with identical settings gives `11/19`: the
batch-global `reduce_max` convergence test makes the joint run iterate
twice (row 1 is far from convergence) although row 0's solo run stops,
converged, after one iteration.  The discrepancy is exact rational
arithmetic, not rounding. -/
theorem exercise_boundary_batch_coupling_counterexample :
    exercise_boundary_samples Pex glNode1 (constSpline 2) tauJ oneJ oneJ oneJ
        sigmaJ true (3 / 4) 2 0 0 = 177 / 329 ∧
    exercise_boundary_samples Pex glNode1 (constSpline 1) tauS oneS oneS oneS
        oneS true (3 / 4) 2 0 0 = 11 / 19 ∧
    (177 / 329 : ℚ) ≠ 11 / 19 := by
  refine ⟨?_, ?_, by norm_num⟩
  · show (while_loop (fun st => !st.1)
      (body Pex glNode1 (constSpline 2) tauJ oneJ oneJ oneJ sigmaJ
        (epsilonFor true) (3 / 4)) 2
      (false, b0_samples oneJ oneJ oneJ)).2 0 0 = 177 / 329
    rw [while_loop_succ,
      if_pos (show (!(false, b0_samples oneJ oneJ oneJ).1) = true from rfl),
      body_jointJ1, while_loop_succ,
      if_pos (show (!(false, B1J).1) = true from rfl), while_loop_zero]
    exact body_jointJ2_entry
  · show (while_loop (fun st => !st.1)
      (body Pex glNode1 (constSpline 1) tauS oneS oneS oneS oneS
        (epsilonFor true) (3 / 4)) 2
      (false, b0_samples oneS oneS oneS)).2 0 0 = 11 / 19
    rw [while_loop_succ,
      if_pos (show (!(false, b0_samples oneS oneS oneS).1) = true from rfl),
      body_soloS1, while_loop_succ,
      if_neg (show ¬(!(true, B1S).1) = true from fun h => Bool.noConfusion h)]
    rfl

/-- C3 counterexample: on an invalid input - the maturity grid `tauNeg`
with a negative entry - `exercise_boundary` does not fail: the loop runs
and the returned boundary callable evaluates to a definite value (`1`). -/
theorem exercise_boundary_no_validation_counterexample :
    tauNeg 0 0 < 0 ∧
    exercise_boundary_fn Pex glNode1 (constSpline 1) tauNeg oneS oneS oneS oneS
        true (3 / 4) 1 0 5 = 1 := by
  refine ⟨by norm_num [tauNeg], ?_⟩
  show (while_loop (fun st => !st.1)
      (body Pex glNode1 (constSpline 1) tauNeg oneS oneS oneS oneS
        (epsilonFor true) (3 / 4)) 1
      (false, b0_samples oneS oneS oneS)).2 0 0 = 1
  rw [while_loop_succ,
    if_pos (show (!(false, b0_samples oneS oneS oneS).1) = true from rfl),
    while_loop_zero]
  show updateB Pex glNode1 (constSpline 1) tauNeg oneS oneS oneS oneS
      (b0_samples oneS oneS oneS) 0 0 = 1
  norm_num [updateB, boundary_numerator, boundary_denominator,
    standard_normal_cdf, d_plus, d_minus, safeDiv, gauss_legendre, glNode1,
    constSpline, b0_samples, tauNeg, oneS, Pex, min_def]

/-- C3 amended: `exercise_boundary` performs no input validation: even for
an invalid maturity grid (a negative entry, or a row that is not strictly
ascending) no failure occurs - the fixed-point loop runs and the
spline-backed callable over the final sample vector is returned.  (Shape
mismatches are outside the value-level model: they surface as errors of
the tensor runtime or the collaborators, not as a check of this code.) -/
theorem exercise_boundary_no_validation (P : Prims) (nodes : List (ℚ × ℚ))
    {m n : ℕ} [NeZero m] [NeZero n] (S : SplineFit m n)
    (tau_grid : Fin m → Fin n → ℚ) (k r q sigma : Fin m → ℚ)
    (isDouble : Bool) (tolerance : ℚ) (max_depth : ℕ)
    (_h : (∃ i j, tau_grid i j < 0) ∨
      ∃ (i : Fin m) (j1 j2 : Fin n), j1 < j2 ∧ tau_grid i j2 ≤ tau_grid i j1) :
    exercise_boundary_fn P nodes S tau_grid k r q sigma isDouble tolerance
        max_depth =
      S tau_grid
        (exercise_boundary_samples P nodes S tau_grid k r q sigma isDouble
          tolerance max_depth) := rfl

theorem exercise_boundary_no_validation_witness :
    ((∃ i j, tauNeg i j < 0) ∨
      ∃ (i : Fin 1) (j1 j2 : Fin 1), j1 < j2 ∧ tauNeg i j2 ≤ tauNeg i j1) ∧
    exercise_boundary_fn Pex glNode1 (constSpline 1) tauNeg oneS oneS oneS oneS
        true (3 / 4) 1 =
      constSpline 1 tauNeg
        (exercise_boundary_samples Pex glNode1 (constSpline 1) tauNeg oneS oneS
          oneS oneS true (3 / 4) 1) :=
  ⟨Or.inl ⟨0, 0, by norm_num [tauNeg]⟩,
    exercise_boundary_no_validation Pex glNode1 (constSpline 1) tauNeg oneS
      oneS oneS oneS true (3 / 4) 1 (Or.inl ⟨0, 0, by norm_num [tauNeg]⟩)⟩

theorem exercise_boundary_convergence_decision_witness :
    ((body Pex glNode1 (constSpline 1) tauS oneS oneS oneS oneS
        (epsilonFor true) (3 / 4) (false, b0_samples oneS oneS oneS)).1 = true ↔
      reduce_max (fun i j =>
        |updateB Pex glNode1 (constSpline 1) tauS oneS oneS oneS oneS
            (b0_samples oneS oneS oneS) i j - b0_samples oneS oneS oneS i j| /
          (|updateB Pex glNode1 (constSpline 1) tauS oneS oneS oneS oneS
            (b0_samples oneS oneS oneS) i j| + epsilonFor true)) ≤ 3 / 4) ∧
    ((body Pex glNode1 (constSpline 1) tauS oneS oneS oneS oneS
        (epsilonFor true) (3 / 4) (false, b0_samples oneS oneS oneS)).1 = true ↔
      ∀ i j,
        |updateB Pex glNode1 (constSpline 1) tauS oneS oneS oneS oneS
            (b0_samples oneS oneS oneS) i j - b0_samples oneS oneS oneS i j| /
          (|updateB Pex glNode1 (constSpline 1) tauS oneS oneS oneS oneS
            (b0_samples oneS oneS oneS) i j| + epsilonFor true) ≤ 3 / 4) ∧
    (body Pex glNode1 (constSpline 1) tauS oneS oneS oneS oneS
        (epsilonFor true) (3 / 4) (false, b0_samples oneS oneS oneS)).2 =
      updateB Pex glNode1 (constSpline 1) tauS oneS oneS oneS oneS
        (b0_samples oneS oneS oneS) ∧
    epsilonFor false = 1 / 10 ^ 6 ∧ epsilonFor true = 1 / 10 ^ 10 :=
  exercise_boundary_convergence_decision Pex glNode1 (constSpline 1) tauS oneS
    oneS oneS oneS true (3 / 4) (false, b0_samples oneS oneS oneS)

theorem exercise_boundary_loop_budget_witness :
    stepsUsed (fun st => !st.1)
        (body Pex glNode1 (constSpline 1) tauS oneS oneS oneS oneS
          (epsilonFor true) (3 / 4)) 2 (false, b0_samples oneS oneS oneS) ≤ 2 ∧
    exercise_boundary_samples Pex glNode1 (constSpline 1) tauS oneS oneS oneS
        oneS true (3 / 4) 2 =
      ((body Pex glNode1 (constSpline 1) tauS oneS oneS oneS oneS
          (epsilonFor true) (3 / 4))^[
          stepsUsed (fun st => !st.1)
            (body Pex glNode1 (constSpline 1) tauS oneS oneS oneS oneS
              (epsilonFor true) (3 / 4)) 2 (false, b0_samples oneS oneS oneS)]
        (false, b0_samples oneS oneS oneS)).2 ∧
    exercise_boundary_fn Pex glNode1 (constSpline 1) tauS oneS oneS oneS oneS
        true (3 / 4) 2 =
      constSpline 1 tauS
        (exercise_boundary_samples Pex glNode1 (constSpline 1) tauS oneS oneS
          oneS oneS true (3 / 4) 2) :=
  exercise_boundary_loop_budget Pex glNode1 (constSpline 1) tauS oneS oneS oneS
    oneS true (3 / 4) 2

theorem exercise_boundary_shape_invariance_witness :
    exercise_boundary Pex glNode1 (constSpline 1) tauS oneS oneS oneS oneS true
        (3 / 4) 2 (fun (_ : Fin 1) (_ : Fin 1) (_ : Fin 1) => (5 : ℚ)) 0 0 0 =
      exercise_boundary_fn Pex glNode1 (constSpline 1) tauS oneS oneS oneS oneS
        true (3 / 4) 2 0 5 :=
  exercise_boundary_shape_invariance Pex glNode1 (constSpline 1) tauS oneS oneS
    oneS oneS true (3 / 4) 2 (fun _ _ _ => 5) 0 0 0
